import Mathlib

/-!
Verification of the Balance API response envelope and error translator.

The embedding follows the TypeScript sources of the service:
app/src/utils/responseBuilder.ts, app/src/middlewares/error.middleware.ts,
app/src/controllers/balance.controller.ts and app/src/app.ts.
JavaScript objects with optional fields are modelled as structures with
Option-typed fields; JavaScript truthiness checks performed by the or
operator are modelled explicitly (0 and the empty string are falsy).
-/

/-- The balance payload, from app/src/types/balance.types.ts as documented:
a numeric balance and a currency code string. The numeric JavaScript value
is modelled as a rational number. -/
structure Balance where
  balance : ℚ
  currency : String
  deriving DecidableEq, Repr

/-- The response envelope type, from app/src/types/api-response.types.ts as
used by ResponseBuilder: a success flag plus optional data and error
fields; an Option value of none models an absent JSON field. -/
structure ApiResponse (T : Type) where
  success : Bool
  data : Option T
  error : Option String
  deriving DecidableEq, Repr

namespace ResponseBuilder

/-- ResponseBuilder.success from app/src/utils/responseBuilder.ts: wraps a
payload with the success flag set and no error field. -/
def success {T : Type} (data : T) : ApiResponse T :=
  { success := true, data := some data, error := none }

/-- ResponseBuilder.error from app/src/utils/responseBuilder.ts: wraps a
message with the success flag cleared and no data field. -/
def error {T : Type} (message : String) : ApiResponse T :=
  { success := false, data := none, error := some message }

end ResponseBuilder

/-- A raised failure value as seen by the error middleware. The middleware
receives a dynamically typed error and reads only its status and message
fields; the stack field stands for any further data the error value
carries (such as a stack trace), which the middleware never reads. -/
structure Failure where
  status : Option Nat
  message : Option String
  stack : Option String
  deriving DecidableEq, Repr

/-- JavaScript `v || d` for an optional number: the default is taken when
the field is absent or its value is falsy (0). -/
def jsOrNat (v : Option Nat) (d : Nat) : Nat :=
  match v with
  | some n => if n = 0 then d else n
  | none => d

/-- JavaScript `v || d` for an optional string: the default is taken when
the field is absent or its value is falsy (the empty string). -/
def jsOrStr (v : Option String) (d : String) : String :=
  match v with
  | some s => if s = ("") then d else s
  | none => d

/-- A response body: either the uniform JSON envelope, or the literal
object with a single status field returned by the health route. -/
inductive Body where
  | envelope (e : ApiResponse Balance)
  | health (status : String)
  deriving DecidableEq, Repr

/-- An HTTP response: a status code and a JSON body. -/
structure HttpResponse where
  status : Nat
  body : Body
  deriving DecidableEq, Repr

/-- Whether a body is a JSON object carrying the success boolean of the
envelope; the health route's literal body carries no such field. -/
def hasSuccessField : Body → Bool
  | Body.envelope _ => true
  | Body.health _ => false

/-- The error field of a body, when the body is an envelope. -/
def bodyError : Body → Option String
  | Body.envelope e => e.error
  | Body.health _ => none

/-- errorHandler from app/src/middlewares/error.middleware.ts: resolves
the status via `err.status || 500`, the message via
`err.message || "Internal Server Error"`, and responds with the resolved
status and an error envelope built by ResponseBuilder.error. -/
def errorHandler (err : Failure) : HttpResponse :=
  { status := jsOrNat err.status 500,
    body := Body.envelope (ResponseBuilder.error (jsOrStr err.message ("Internal Server Error"))) }

/-- Modelled from the spec: app/src/errors/NotFoundError.ts is not under
src/, only its construction site in app.ts is. The spec describes it as a
classified failure carrying status 404 and the given message; as a
JavaScript Error it also carries a stack trace, which is modelled by the
stack field. -/
def NotFoundError (message : String) : Failure :=
  { status := some 404, message := some message, stack := some ("stack trace") }

/-- Modelled from the spec: app/src/services/balance.service.ts is not
under src/. The spec and README document the constant payload with
balance 123.45 and currency USD. -/
def getBalanceValue : Balance :=
  { balance := 123.45, currency := ("USD") }

/-- getBalance from app/src/controllers/balance.controller.ts: responds
with status 200 and a success envelope around the service's payload. -/
def getBalance : HttpResponse :=
  { status := 200, body := Body.envelope (ResponseBuilder.success getBalanceValue) }

/-- Dispatch of a GET request by path, from app/src/app.ts. The balance
router (app/src/routes/balance.routes.ts, not under src/) is modelled
from the spec as a single registered path returning the constant payload.
The health route answers with the literal status-ok object; any other
path reaches the fallback middleware, which raises a NotFoundError that
the errorHandler consumes. -/
def serveGet (path : String) : HttpResponse :=
  if path = ("/balance") then getBalance
  else if path = ("/health") then { status := 200, body := Body.health ("ok") }
  else errorHandler (NotFoundError ("Route not found"))

/-- The message clause of claim C1 as stated: the error translator resolves
the message to the failure's message field whenever that field is present. -/
def claimC1MessageClause : Prop :=
  ∀ (f : Failure) (m : String), f.message = some m →
    bodyError (errorHandler f).body = some m

/-- Claim C6 as stated: every response on every route, the health route
included, has a body carrying the success boolean of the envelope. -/
def claimC6AllRoutesEnvelope : Prop :=
  ∀ path : String, hasSuccessField (serveGet path).body = true

/-! Theorems settling the claims. -/

/-- Helper: resolving an optional message against the fixed fallback
string never yields the empty string, since an empty message is falsy
and replaced by the fallback. -/
theorem jsOrStr_ne_empty (v : Option String) :
    jsOrStr v ("Internal Server Error") ≠ ("") := by
  cases v with
  | none => decide
  | some s =>
    by_cases hs : s = ("")
    · subst hs
      decide
    · have hred : jsOrStr (some s) ("Internal Server Error") = s := by
        simp [jsOrStr, hs]
      rw [hred]
      exact hs

/-- C1 counterexample: a failure carrying status 403 and the present but
empty message is translated to the fallback message, not to its own
message field, so the claim as stated is false. -/
theorem C1_counterexample : ¬ claimC1MessageClause := by
  intro h
  have h2 := h { status := some 403, message := some (""), stack := none } ("") rfl
  exact absurd h2 (by decide)

/-- C1 amended: the error translator resolves the status to the failure's
status field when present and nonzero and to 500 otherwise, and the
message to the failure's message field when present and non-empty and to
the fixed fallback string otherwise; a failure carrying status 403 and
message Forbidden produces exactly status 403 with that error message. -/
theorem C1_amended (f : Failure) :
    ((f.status = none ∨ f.status = some 0) → (errorHandler f).status = 500)
    ∧ (∀ s : Nat, f.status = some s → s ≠ 0 → (errorHandler f).status = s)
    ∧ ((f.message = none ∨ f.message = some ("")) →
        bodyError (errorHandler f).body = some ("Internal Server Error"))
    ∧ (∀ m : String, f.message = some m → m ≠ ("") →
        bodyError (errorHandler f).body = some m)
    ∧ errorHandler { status := some 403, message := some ("Forbidden"), stack := none } =
        { status := 403, body := Body.envelope (ResponseBuilder.error ("Forbidden")) } := by
  refine ⟨?_, ?_, ?_, ?_, by decide⟩
  · rintro (hs | hs) <;> simp [errorHandler, jsOrNat, hs]
  · intro s hs hnz
    simp [errorHandler, jsOrNat, hs, hnz]
  · rintro (hm | hm) <;>
      simp [errorHandler, jsOrStr, bodyError, ResponseBuilder.error, hm]
  · intro m hm hne
    simp [errorHandler, jsOrStr, bodyError, ResponseBuilder.error, hm, hne]

/-- C1 witness: the amended theorem applied to the failure carrying status
403 and message Forbidden. -/
theorem C1_witness :
    (errorHandler { status := some 403, message := some ("Forbidden"), stack := none }).status = 403
    ∧ bodyError (errorHandler { status := some 403, message := some ("Forbidden"), stack := none }).body =
        some ("Forbidden") :=
  ⟨(C1_amended { status := some 403, message := some ("Forbidden"), stack := none }).2.1
      403 rfl (by decide),
   (C1_amended { status := some 403, message := some ("Forbidden"), stack := none }).2.2.2.1
      ("Forbidden") rfl (by decide)⟩

/-- C2: a failure raised with no status field and no message field is
translated to status 500 with an envelope whose error field equals the
fixed fallback string. -/
theorem C2_unclassified_failure (f : Failure)
    (hs : f.status = none) (hm : f.message = none) :
    (errorHandler f).status = 500 ∧
    (errorHandler f).body =
      Body.envelope (ResponseBuilder.error ("Internal Server Error")) := by
  constructor
  · simp [errorHandler, jsOrNat, hs]
  · simp [errorHandler, jsOrStr, hm]

/-- C2 witness: the theorem applied to the failure with both fields
absent. -/
theorem C2_witness :
    (errorHandler { status := none, message := none, stack := none }).status = 500 ∧
    (errorHandler { status := none, message := none, stack := none }).body =
      Body.envelope (ResponseBuilder.error ("Internal Server Error")) :=
  C2_unclassified_failure { status := none, message := none, stack := none } rfl rfl

/-- C3: for every payload and every message, the envelope built by the
success builder and the envelope built by the error builder each carry
exactly one of the data and error fields, and which one is present is
governed by the success flag. -/
theorem C3_envelope_exclusive (T : Type) (payload : T) (message : String) :
    ((ResponseBuilder.success payload).data.isSome = (ResponseBuilder.success payload).success
      ∧ (ResponseBuilder.success payload).error.isSome = !(ResponseBuilder.success payload).success)
    ∧ ((@ResponseBuilder.error T message).data.isSome = (@ResponseBuilder.error T message).success
      ∧ (@ResponseBuilder.error T message).error.isSome = !(@ResponseBuilder.error T message).success)
    ∧ (ResponseBuilder.success payload).success = true
    ∧ (@ResponseBuilder.error T message).success = false := by
  refine ⟨⟨rfl, rfl⟩, ⟨rfl, rfl⟩, rfl, rfl⟩

/-- C4: a GET request whose path matches no registered route is answered
with status 404 and an envelope whose error field equals the not-found
message, produced by translating the fallback failure through the error
handler. -/
theorem C4_unmatched_route (path : String)
    (hb : path ≠ ("/balance")) (hh : path ≠ ("/health")) :
    serveGet path =
      { status := 404, body := Body.envelope (ResponseBuilder.error ("Route not found")) } ∧
    serveGet path = errorHandler (NotFoundError ("Route not found")) := by
  constructor
  · simp [serveGet, hb, hh, errorHandler, NotFoundError, jsOrNat, jsOrStr]
  · simp [serveGet, hb, hh]

/-- C4 witness: the theorem applied to a concrete unregistered path. -/
theorem C4_witness :
    serveGet ("/does-not-exist") =
      { status := 404, body := Body.envelope (ResponseBuilder.error ("Route not found")) } :=
  (C4_unmatched_route ("/does-not-exist") (by decide) (by decide)).1

/-- C5: a GET request to the balance route is answered with status 200
and a success envelope whose payload carries the numeric balance 123.45
and the currency code string USD. -/
theorem C5_balance_route :
    serveGet ("/balance") =
      { status := 200, body := Body.envelope (ResponseBuilder.success getBalanceValue) } ∧
    getBalanceValue.balance = (12345 : ℚ) / 100 ∧
    getBalanceValue.currency = ("USD") := by
  refine ⟨rfl, by norm_num [getBalanceValue], rfl⟩

/-- C6 counterexample: the health route answers with the literal
status-ok object, whose body carries no success boolean, so the claim
that every route's response carries one is false. -/
theorem C6_counterexample : ¬ claimC6AllRoutesEnvelope := by
  intro h
  exact absurd (h ("/health")) (by decide)

/-- C6 amended: every response on a route other than the health route is
a JSON envelope carrying the success boolean, and every envelope emitted
with the success flag set has the data field present and the error field
absent. -/
theorem C6_amended (path : String) :
    (path ≠ ("/health") → hasSuccessField (serveGet path).body = true)
    ∧ (∀ e : ApiResponse Balance, (serveGet path).body = Body.envelope e →
        e.success = true → e.data.isSome = true ∧ e.error = none) := by
  by_cases hb : path = ("/balance")
  · subst hb
    constructor
    · intro _
      rfl
    · intro e he _
      have he2 : Body.envelope (ResponseBuilder.success getBalanceValue) = Body.envelope e := he
      injection he2 with h3
      rw [← h3]
      exact ⟨rfl, rfl⟩
  · by_cases hh : path = ("/health")
    · subst hh
      constructor
      · intro hne
        exact absurd rfl hne
      · intro e he _
        exact Body.noConfusion (show Body.health ("ok") = Body.envelope e from he)
    · have hserve : serveGet path = errorHandler (NotFoundError ("Route not found")) := by
        simp [serveGet, hb, hh]
      constructor
      · intro _
        rw [hserve]
        rfl
      · intro e he hs
        rw [hserve] at he
        have he2 : Body.envelope
            (ResponseBuilder.error (jsOrStr (some ("Route not found")) ("Internal Server Error"))) =
            Body.envelope e := he
        injection he2 with h3
        rw [← h3] at hs
        exact absurd hs (by decide)

/-- C6 witness: the amended theorem applied to the balance route. -/
theorem C6_witness :
    hasSuccessField (serveGet ("/balance")).body = true ∧
    ((ResponseBuilder.success getBalanceValue).data.isSome = true ∧
      (ResponseBuilder.success getBalanceValue).error = none) :=
  ⟨(C6_amended ("/balance")).1 (by decide),
   (C6_amended ("/balance")).2 (ResponseBuilder.success getBalanceValue) rfl rfl⟩

/-- C7: every response produced by the error translator is an envelope
with the success flag cleared, the data field absent, and a non-empty
error message. -/
theorem C7_failure_envelope (f : Failure) :
    ∃ m : String, (errorHandler f).body =
        Body.envelope { success := false, data := none, error := some m } ∧ m ≠ ("") :=
  ⟨jsOrStr f.message ("Internal Server Error"), rfl, jsOrStr_ne_empty f.message⟩

/-- C8: nothing a failure carries beyond its status and message fields
reaches the client: the error message placed in the body is either the
failure's own message field or the fixed fallback string, and two
failures agreeing on status and message are translated to identical
responses regardless of any other data they carry. -/
theorem C8_no_leak (f g : Failure) :
    (bodyError (errorHandler f).body = f.message ∨
      bodyError (errorHandler f).body = some ("Internal Server Error"))
    ∧ (f.status = g.status → f.message = g.message → errorHandler f = errorHandler g) := by
  constructor
  · cases hm : f.message with
    | none =>
      right
      simp [errorHandler, bodyError, ResponseBuilder.error, jsOrStr, hm]
    | some s =>
      by_cases hs : s = ("")
      · right
        simp [errorHandler, bodyError, ResponseBuilder.error, jsOrStr, hm, hs]
      · left
        simp [errorHandler, bodyError, ResponseBuilder.error, jsOrStr, hm, hs]
  · intro h1 h2
    simp [errorHandler, h1, h2]

/-- C8 witness: two failures sharing status 404 and the not-found message
but carrying different stack data are translated identically. -/
theorem C8_witness :
    errorHandler { status := some 404, message := some ("Route not found"), stack := some ("trace A") } =
    errorHandler { status := some 404, message := some ("Route not found"), stack := none } :=
  (C8_no_leak
    { status := some 404, message := some ("Route not found"), stack := some ("trace A") }
    { status := some 404, message := some ("Route not found"), stack := none }).2 rfl rfl

/-- C9: a GET request to the health route is answered with status 200 and
the literal body carrying exactly the single status-ok field. -/
theorem C9_health_route :
    serveGet ("/health") = { status := 200, body := Body.health ("ok") } := rfl

/-- C10: the error translator substitutes the default whenever the field
is falsy, not only when it is absent: a present status equal to 0 yields
status 500, and a present but empty message yields the fallback error
message. -/
theorem C10_falsy_defaults (f g : Failure)
    (hs : f.status = some 0) (hm : g.message = some ("")) :
    (errorHandler f).status = 500 ∧
    bodyError (errorHandler g).body = some ("Internal Server Error") := by
  constructor
  · simp [errorHandler, jsOrNat, hs]
  · simp [errorHandler, bodyError, ResponseBuilder.error, jsOrStr, hm]

/-- C10 witness: the theorem applied to a failure with status 0 and a
failure with an empty message. -/
theorem C10_witness :
    (errorHandler { status := some 0, message := some ("boom"), stack := none }).status = 500 ∧
    bodyError (errorHandler { status := some 200, message := some (""), stack := none }).body =
      some ("Internal Server Error") :=
  C10_falsy_defaults { status := some 0, message := some ("boom"), stack := none }
    { status := some 200, message := some (""), stack := none } rfl rfl
